import Mathlib

/-!
# Verification of the quiz-solving pipeline

Shallow embedding of the two near-duplicate FastAPI quiz solvers
(`main.py`, pdfplumber/pandas variant, and `api/index.py`, PyMuPDF variant)
and proofs about the properties stated in the specification.

Modelling conventions:
* machine floats are modelled by exact rationals (`ℚ`); the numeric-coercion
  model covers finite decimal literals (sign, integer/fraction digits,
  exponent), which is the common fragment of Python `float()` and
  `pandas.to_numeric`; non-finite payloads (`nan`, `inf`) have no rational
  counterpart and are outside the model;
* every external interaction of a run (browser navigation, in-page script
  evaluation, HTML text extraction, PDF download, submission POST) is an
  oracle recorded in an `Env` value;
* exceptions are modelled by `Option`/explicit abort branches that mirror the
  `try/except` structure of the source.
-/

namespace Quiz

/-- Character-list substring test, modelling Python's `"pat" in s`. -/
def hasSubstring (pat l : List Char) : Bool :=
  l.tails.any fun t => pat.isPrefixOf t

/-- Numeric value of a digit list read in base 10. -/
def digitsVal (l : List Char) : Nat :=
  l.foldl (fun a c => 10 * a + (c.toNat - 48)) 0

/-- A nonempty all-digit list. -/
def allDigits (l : List Char) : Bool :=
  !l.isEmpty && l.all Char.isDigit

/-- Strip leading and trailing spaces (Python `float` ignores surrounding
whitespace). -/
def stripSpaces (l : List Char) : List Char :=
  ((l.dropWhile (· = ' ')).reverse.dropWhile (· = ' ')).reverse

/-- Unsigned mantissa of a decimal literal: `digits`, `digits.digits`,
`digits.` or `.digits` (at least one digit overall). -/
def parseUnsignedMantissa (l : List Char) : Option ℚ :=
  match l.splitOn '.' with
  | [i] => if allDigits i then some (digitsVal i : ℚ) else none
  | [i, f] =>
      if i.all Char.isDigit && f.all Char.isDigit && (!i.isEmpty || !f.isEmpty) then
        some ((digitsVal i : ℚ) + (digitsVal f : ℚ) / (10 : ℚ) ^ f.length)
      else none
  | _ => none

/-- Consume an optional leading sign; `true` means negative. -/
def parseSign : List Char → Bool × List Char
  | '-' :: rest => (true, rest)
  | '+' :: rest => (false, rest)
  | l => (false, l)

/-- Signed mantissa. -/
def parseSignedMantissa (l : List Char) : Option ℚ :=
  let s := parseSign l
  (parseUnsignedMantissa s.2).map fun q => if s.1 then -q else q

/-- Model of Python `float(str)` restricted to finite decimal literals,
as a rational.  `nan`/`inf`/underscored literals are outside the rational
model (see the file header). -/
def pyFloat (s : String) : Option ℚ :=
  let l := (stripSpaces s.toList).map fun c => if c = 'E' then 'e' else c
  match l.splitOn 'e' with
  | [m] => parseSignedMantissa m
  | [m, e] =>
      match parseSignedMantissa m with
      | none => none
      | some mv =>
          let s := parseSign e
          if allDigits s.2 then
            some (if s.1 then mv / (10 : ℚ) ^ digitsVal s.2 else mv * (10 : ℚ) ^ digitsVal s.2)
          else none
  | _ => none

/-- Numeric coercion of one extracted table cell.  A missing cell (`None` in
Python) fails coercion: `float(None)` raises `TypeError` and
`pd.to_numeric(None)` yields `NaN`. -/
def coerceCell : Option String → Option ℚ
  | none => none
  | some s => pyFloat s

/-- The table answer of `main.py` (lines 119–128): build a
`pandas.DataFrame` from the rows with the first extracted row as column
names, coerce the `value` column with `pd.to_numeric(…, errors='coerce')`,
replace failures by `0` via `.fillna(0)`, and sum.

Abort (`none`) paths, each of which ends the run with no answer:
* empty table: `table[0]` raises `IndexError` (reaches the top-level handler);
* ragged data (widest row length differs from the header length): the
  `DataFrame` constructor raises its "N columns passed, passed data had M
  columns" error (caught at the stage or the top-level handler); rows
  shorter than the widest are padded with `None` by the constructor;
* no `value` column: `df['value']` raises `KeyError` (stage handler);
* several `value` columns: `df['value']` is a `DataFrame` and `pd.to_numeric`
  raises `TypeError` (reaches the top-level handler). -/
def mainTableAnswer (table : List (List (Option String))) : Option ℚ :=
  match table with
  | [] => none
  | header :: rows =>
      let width := (rows.map List.length).foldl max 0
      if !rows.isEmpty && width != header.length then none
      else if header.count (some "value") == 1 then
        let idx := header.indexOf (some "value")
        some ((rows.map fun r => ((coerceCell ((r[idx]?).getD none)).getD 0)).sum)
      else none

/-- Row-by-row summation of `api/index.py` (lines 131–137): `float(row[i])`
added when it parses, the row silently skipped on `ValueError`/`TypeError`;
a row with no cell at `i` raises `IndexError`, which the stage-wide
`except Exception` turns into an abort of the whole computation (`none`). -/
def indexSumRows (i : Nat) : List (List (Option String)) → Option ℚ
  | [] => some 0
  | r :: rs =>
      match r[i]? with
      | none => none
      | some cell => (indexSumRows i rs).map fun t => (coerceCell cell).getD 0 + t

/-- The table answer of `api/index.py` (lines 117–143): first extracted row
is the header, `header.index("value")` locates the column (`ValueError`
aborts), then the rows are summed by `indexSumRows`.  An empty extraction
makes `table_data[0]` raise `IndexError`, caught by the stage handler. -/
def indexTableAnswer (table : List (List (Option String))) : Option ℚ :=
  match table with
  | [] => none
  | header :: rows =>
      if header.contains (some "value") then
        indexSumRows (header.indexOf (some "value")) rows
      else none

/-- The specification's value of the answer: sum, over all data rows, of the
cell in the `value` column when it coerces to a number, `0` (skip) when it
does not or when the row has no such cell. -/
def specValueSum (header : List (Option String)) (rows : List (List (Option String))) : ℚ :=
  let i := header.indexOf (some "value")
  (rows.map fun r => (coerceCell ((r[i]?).getD none)).getD 0).sum

example : pyFloat "10" = some 10 := by rfl
example : pyFloat "abc" = none := by rfl
example : pyFloat "5.5" = some (11 / 2) := by
  simp [pyFloat, stripSpaces, parseSignedMantissa, parseSign, parseUnsignedMantissa,
    allDigits, digitsVal, List.splitOn]
  norm_num
example : pyFloat "-2e2" = some (-200) := by
  simp [pyFloat, stripSpaces, parseSignedMantissa, parseSign, parseUnsignedMantissa,
    allDigits, digitsVal, List.splitOn]
  norm_num

/-! ## URL recognition

Model of `re.findall(r'https?://(?:[-\w.]|(?:%[\da-fA-F]{2}))+', question_text)`
(`main.py` line 86, `api/index.py` line 85).  The pattern is scheme `http`
with an optional `s` and `://`, then one or more units, each either a single
character of the class `[-\w.]` or a `%` followed by two hexadecimal digits.
Nothing follows the greedy `+`, so the match at a position is maximal-munch
and `findall` scans left to right without overlap.  Word and digit classes
are modelled at their ASCII core (`[A-Za-z0-9_]`, `[0-9a-fA-F]`); Python's
Unicode extension of `\w`/`\d` is outside the ASCII model. -/

/-- ASCII model of the regex class `\w`. -/
def isWordChar (c : Char) : Bool :=
  c.isAlphanum || c = '_'

/-- ASCII model of the regex class `[\da-fA-F]`. -/
def isHexDigitChar (c : Char) : Bool :=
  c.isDigit || ('a' ≤ c && c ≤ 'f') || ('A' ≤ c && c ≤ 'F')

/-- One-character units of the regex body class `[-\w.]`. -/
def isUrlChar (c : Char) : Bool :=
  c = '-' || isWordChar c || c = '.'

/-- Number of characters the greedy body `(?:[-\w.]|(?:%[\da-fA-F]{2}))+`
consumes from the front of `l` (may be `0`, meaning no unit matches). -/
def bodyLen : List Char → Nat
  | [] => 0
  | c :: rest =>
      if isUrlChar c then bodyLen rest + 1
      else if c = '%' then
        match rest with
        | h1 :: h2 :: rest2 =>
            if isHexDigitChar h1 && isHexDigitChar h2 then bodyLen rest2 + 3 else 0
        | _ => 0
      else 0

/-- Split off the scheme part `https?://` at the front of `l`, if present.
`https://` and `http://` differ at their fifth character, so the regex
alternative order cannot matter. -/
def schemeSplit (l : List Char) : Option (List Char × List Char) :=
  if "https://".toList.isPrefixOf l then some ("https://".toList, l.drop 8)
  else if "http://".toList.isPrefixOf l then some ("http://".toList, l.drop 7)
  else none

/-- Try the whole pattern anchored at the front of `l`: returns the match
and the rest of the input.  A scheme followed by an empty body is not a
match (the body requires at least one unit). -/
def matchAt (l : List Char) : Option (List Char × List Char) :=
  match schemeSplit l with
  | none => none
  | some (pre, rest) =>
      let n := bodyLen rest
      if n = 0 then none else some (pre ++ rest.take n, rest.drop n)

/-- Scan of `re.findall`: try the pattern at every position, left to right;
on a match continue after it, otherwise advance one character.  The fuel
(initialised to the input length, which bounds the number of steps) makes
the recursion structural. -/
def findUrlsAux : Nat → List Char → List (List Char)
  | 0, _ => []
  | _, [] => []
  | fuel + 1, c :: rest =>
      match matchAt (c :: rest) with
      | some (m, r) => m :: findUrlsAux fuel r
      | none => findUrlsAux fuel rest

/-- All URLs the source's regex recognises in `text`, in order of
appearance. -/
def findUrls (text : List Char) : List (List Char) :=
  findUrlsAux text.length text

/-- The submission-URL selection loop (`main.py` lines 87–91): the first
recognised URL containing the literal substring `submit`. -/
def findSubmissionUrl (text : String) : Option String :=
  ((findUrls text.toList).find? fun u => hasSubstring "submit".toList u).map
    fun u => String.mk u

example : findUrls "go to http://a.b/ then https://x.submit.io now.".toList =
    ["http://a.b".toList, "https://x.submit.io".toList] := by decide
example : findSubmissionUrl "see http://a.b and https://quiz.submit.example now" =
    some "https://quiz.submit.example" := by decide
example : findSubmissionUrl "see http://a.b only" = none := by decide

/-! ## Payload extraction

`main.py` lines 63–72 / `api/index.py` lines 62–71: evaluate
`document.querySelector("#result + script").innerHTML` in the page, take
the second backtick-delimited segment, base64-decode it to UTF-8 text; on
any failure fall back to the full rendered page content. -/

/-- Model of `script_content.split('`')[1]`: Python raises `IndexError`
(here: `none`) when the split has fewer than two segments, i.e. when the
script text contains no backtick. -/
def secondBacktickSegment (s : String) : Option String :=
  ((s.toList.splitOn '`')[1]?).map String.mk

/-- The payload-extraction stage.  `b64` stands for
`base64.b64decode(·).decode('utf-8')` (`none` = the library call raises);
`scriptEval` is the result of the in-page evaluation (`none` = the
`querySelector` lookup or the evaluation raises); every failure falls
through to the verbatim page content, mirroring the sole `try/except` of
the stage. -/
def extractPayload (b64 : String → Option String) (scriptEval : Option String)
    (pageContent : String) : String :=
  match scriptEval with
  | none => pageContent
  | some sc =>
      match secondBacktickSegment sc with
      | none => pageContent
      | some seg =>
          match b64 seg with
          | none => pageContent
          | some decoded => decoded

/-! ## The pipeline -/

/-- The inbound request body (pydantic model `QuizRequest`). -/
structure QuizRequest where
  email : String
  secret : String
  url : String
deriving DecidableEq, Repr

/-- The first `<a>` element of the parsed content, as seen by the code:
its `href` attribute, if any, and its number of children.  bs4's `Tag`
has no `__bool__` but a `__len__` returning `len(self.contents)`, so the
truthiness test `if soup.find('a'):` is `childCount ≠ 0`. -/
structure AnchorTag where
  href : Option String
  childCount : Nat
deriving DecidableEq, Repr

/-- The downloaded PDF document as the code observes it: its page count
and the table extracted from page index 1 (`none` = no table found). -/
structure PdfDoc where
  pageCount : Nat
  pageTwoTable : Option (List (List (Option String)))
deriving DecidableEq, Repr

/-- The parsed JSON body of the submission response.  `correct` is the
truthiness of `response_json.get("correct")` (absent means falsy); `url`
is the optional follow-up URL (`response_json["url"]`, truthy iff present
and nonempty); `reason` the optional failure reason. -/
structure SubmissionReply where
  correct : Bool
  url : Option String
  reason : Option String
deriving DecidableEq, Repr

/-- One run's external world: every library/network interaction of
`solve_quiz`, recorded as oracles.

* `launchOk`: `p.chromium.launch()` succeeds (on failure `browser` stays
  `None`);
* `navOk`: `browser.new_page()` and `page.goto(url, timeout=30000)` succeed;
* `scriptEval`: result of the in-page evaluation (`none` = raises);
* `pageContent`: `page.content()`;
* `b64`: `base64.b64decode(·).decode('utf-8')` (`none` = raises);
* `getText`: `BeautifulSoup(·,'lxml').get_text()`;
* `findAnchor`: `soup.find('a')` on the decoded content;
* `fetchPdf`: `requests.get(download_link)` + `raise_for_status()` + opening
  the bytes as a PDF (`none` = transport error, non-2xx status, or an
  unreadable document);
* `postReply`: parsed JSON of the submission POST (`none` = transport
  error, non-2xx status, or a JSON decoding error). -/
structure Env where
  launchOk : Bool
  navOk : Bool
  scriptEval : Option String
  pageContent : String
  b64 : String → Option String
  getText : String → String
  findAnchor : String → Option AnchorTag
  fetchPdf : String → Option PdfDoc
  postReply : Option SubmissionReply

/-- The JSON payload POSTed to the submission URL. -/
structure SubmissionPayload where
  email : String
  secret : String
  url : String
  answer : ℚ
deriving DecidableEq, Repr

/-- Where a run ends.  Exceptions that escape a stage handler (for example
pandas' column-count error) are caught by the top-level handler with the
same observable effect — no answer, no submission, teardown — so both are
folded into the abort outcome of their stage. -/
inductive Outcome where
  | navError
  | detailError
  | noSubmitUrl
  | unrecognized
  | solveError
  | postError
  | wrongAnswer
  | seriesFinished
  | chainQueuedLocally
deriving DecidableEq, Repr

/-- Everything observable about one `solve_quiz` run. -/
structure RunResult where
  browserLaunched : Bool
  browserClosed : Bool
  raisedToCaller : Bool
  downloadLink : Option String
  submissionUrl : Option String
  answer : Option ℚ
  posts : List SubmissionPayload
  localBgTasks : List QuizRequest
  outcome : Outcome
deriving DecidableEq, Repr

/-- The literal dispatch marker of the solving stage, curly quotes
included (`main.py` line 103 / `api/index.py` line 102). -/
def markerText : String :=
  "sum of the “value” column"

/-- Python's `"sub" in s` on strings. -/
def strContains (pat s : String) : Bool :=
  hasSubstring pat.toList s.toList

/-- A run result that launched and closed the browser, raised nothing,
and has not yet observed anything else; the branches of `runPipeline`
override the fields they determine. -/
def baseResult : RunResult where
  browserLaunched := true
  browserClosed := true
  raisedToCaller := false
  downloadLink := none
  submissionUrl := none
  answer := none
  posts := []
  localBgTasks := []
  outcome := .navError

/-- The submission stage (`main.py` lines 145–181): POST the payload, and
on a `correct` reply with a truthy `url` build the follow-up `QuizRequest`
and `add_task` it to a **freshly constructed local** `BackgroundTasks`
object.  Starlette's `BackgroundTasks.add_task` only appends to the
instance's own task list; an instance runs its tasks only when the
framework invokes it after a response, which never happens to this local
object — the tasks end up in `localBgTasks` and nothing ever executes
them. -/
def submitStage (env : Env) (req : QuizRequest) (su : String) (a : ℚ)
    (dl : Option String) : RunResult :=
  let payload : SubmissionPayload :=
    { email := req.email, secret := req.secret, url := req.url, answer := a }
  let base := { baseResult with
    downloadLink := dl, submissionUrl := some su, answer := some a,
    posts := [payload] }
  match env.postReply with
  | none => { base with outcome := .postError }
  | some reply =>
      if reply.correct then
        match reply.url with
        | some u =>
            if u ≠ "" then
              { base with
                outcome := .chainQueuedLocally
                localBgTasks := [{ email := req.email, secret := req.secret, url := u }] }
            else { base with outcome := .seriesFinished }
        | none => { base with outcome := .seriesFinished }
      else { base with outcome := .wrongAnswer }

/-- The solving stage (`main.py` lines 101–142): dispatch on the marker and
the presence of a download link, fetch and open the PDF, require at least
two pages, require a table on page index 1, and compute the answer with the
variant's table function.  Every failure aborts the run with no answer. -/
def solveStage (solver : List (List (Option String)) → Option ℚ) (env : Env)
    (req : QuizRequest) (qtext : String) (dl : Option String) (su : String) :
    RunResult :=
  let aborted := fun o => { baseResult with
    downloadLink := dl, submissionUrl := some su, outcome := o }
  match dl with
  | none => aborted .unrecognized
  | some link =>
      if strContains markerText qtext then
        match env.fetchPdf link with
        | none => aborted .solveError
        | some pdf =>
            if pdf.pageCount < 2 then aborted .solveError
            else
              match pdf.pageTwoTable with
              | none => aborted .solveError
              | some table =>
                  match solver table with
                  | none => aborted .solveError
                  | some a => submitStage env req su a dl
      else aborted .unrecognized

/-- The detail-extraction stage and everything after it (`main.py` lines
78–99): read the first anchor's `href` (a truthy anchor without `href`
raises `KeyError`, caught by the stage handler), scan the question text for
URLs and keep the first one containing `submit`, abort when there is none,
then hand over to the solving stage. -/
def detailStage (solver : List (List (Option String)) → Option ℚ) (env : Env)
    (req : QuizRequest) (decoded : String) (qtext : String) : RunResult :=
  match env.findAnchor decoded with
  | some anchor =>
      if anchor.childCount ≠ 0 then
        match anchor.href with
        | none => { baseResult with outcome := .detailError }
        | some h => afterAnchor solver env req qtext (some h)
      else afterAnchor solver env req qtext none
  | none => afterAnchor solver env req qtext none
where
  afterAnchor (solver : List (List (Option String)) → Option ℚ) (env : Env)
      (req : QuizRequest) (qtext : String) (dl : Option String) : RunResult :=
    match findSubmissionUrl qtext with
    | none => { baseResult with downloadLink := dl, outcome := .noSubmitUrl }
    | some su => solveStage solver env req qtext dl su

/-- One full `solve_quiz` run, parametrised by the table-answer function of
the variant.  The browser is launched first (`launchOk`), navigation
failures abort, the payload is extracted with its fallback, and the `while`
of stages runs; the single exit point models the `finally` block: the
browser, when launched, is closed on every path, and the top-level
`except Exception` swallows anything a stage let through, so nothing
reaches the caller. -/
def runPipeline (solver : List (List (Option String)) → Option ℚ) (env : Env)
    (req : QuizRequest) : RunResult :=
  if !env.launchOk then
    { baseResult with
      browserLaunched := false
      browserClosed := false
      outcome := .navError }
  else if !env.navOk then
    { baseResult with outcome := .navError }
  else
    let decoded := extractPayload env.b64 env.scriptEval env.pageContent
    let qtext := env.getText decoded
    detailStage solver env req decoded qtext

/-- The run of `main.py` (pdfplumber/pandas variant). -/
def solve_quiz (env : Env) (req : QuizRequest) : RunResult :=
  runPipeline mainTableAnswer env req

/-- The run of `api/index.py` (PyMuPDF variant). -/
def solve_quiz_index (env : Env) (req : QuizRequest) : RunResult :=
  runPipeline indexTableAnswer env req

/-! ## The inbound endpoint -/

/-- Python's `quiz_request.secret != SECRET` with
`SECRET = os.getenv("SECRET") : Optional[str]`: a `str` equals another
`str` with the same characters and never equals `None`. -/
def secretMatches (s : String) (secretCfg : Option String) : Bool :=
  match secretCfg with
  | some v => s = v
  | none => false

/-- The `/quiz` endpoint (`main.py` lines 191–203): requests whose secret
does not match the configured value are rejected with HTTP 403 and nothing
is scheduled; otherwise `solve_quiz` is added to the **injected**
`BackgroundTasks` (the one the framework executes after the response) and
an acknowledgement is returned.  The result is the HTTP outcome
(`Except.error 403` models the raised `HTTPException`) together with the
injected task list after the call. -/
def receive_quiz (secretCfg : Option String) (req : QuizRequest)
    (bg : List QuizRequest) : Except Nat String × List QuizRequest :=
  if !secretMatches req.secret secretCfg then
    (Except.error 403, bg)
  else
    (Except.ok "Quiz received and is being processed.", bg ++ [req])

/-! ## Shape of a recognised URL (claim C6)

Decidable predicates describing the character structure a recognised URL
is claimed to have: a scheme, then a nonempty sequence of units, each a
single allowed character or a percent-encoded byte. -/

/-- Character set the claim allows after the scheme: alphanumerics,
hyphen, dot (no underscore). -/
def claimCharOk (c : Char) : Bool :=
  c.isAlphanum || c = '-' || c = '.'

/-- Body decomposition into units: a character of the allowed set, or `%`
followed by two hexadecimal digits. -/
def bodyUnitsOk (charOk : Char → Bool) : List Char → Bool
  | [] => true
  | c :: rest =>
      if charOk c then bodyUnitsOk charOk rest
      else if c = '%' then
        match rest with
        | h1 :: h2 :: rest2 =>
            isHexDigitChar h1 && isHexDigitChar h2 && bodyUnitsOk charOk rest2
        | _ => false
      else false

/-- A URL shape: `http://` or `https://` followed by a nonempty body whose
units come from `charOk` and percent-encoded bytes. -/
def urlShape (charOk : Char → Bool) (u : List Char) : Bool :=
  if "https://".toList.isPrefixOf u then
    !(u.drop 8).isEmpty && bodyUnitsOk charOk (u.drop 8)
  else if "http://".toList.isPrefixOf u then
    !(u.drop 7).isEmpty && bodyUnitsOk charOk (u.drop 7)
  else false

example : urlShape claimCharOk "http://a.b-c".toList = true := by decide
example : urlShape claimCharOk "http://a_b".toList = false := by decide
example : urlShape isUrlChar "http://a_b".toList = true := by decide
example : urlShape isUrlChar "http://x%2Fy".toList = true := by decide

/-! ## Sample environments and requests for concrete evaluations -/

/-- A sample inbound request. -/
def reqW : QuizRequest where
  email := "student@example.com"
  secret := "s3cret"
  url := "https://quiz.example/q1"

/-- Question text carrying the dispatch marker and a submission URL. -/
def qtextW : String :=
  "Compute the sum of the “value” column and post it to https://quiz.submit.example/answer please"

/-- Environment of a fully successful run: the PDF has two pages and the
table on page index 1 is header `value` over one numeric row; the
submission reply is `correct` with the follow-up URL `https://x/next`. -/
def envChain : Env where
  launchOk := true
  navOk := true
  scriptEval := none
  pageContent := "fallback page"
  b64 := fun _ => none
  getText := fun _ => qtextW
  findAnchor := fun _ => some { href := some "https://files.example/data.pdf", childCount := 1 }
  fetchPdf := fun _ => some { pageCount := 2, pageTwoTable := some [[some "value"], [some "10"]] }
  postReply := some { correct := true, url := some "https://x/next", reason := none }

/-- Same run, but the reply carries no follow-up `url` field. -/
def envNoUrl : Env where
  launchOk := true
  navOk := true
  scriptEval := none
  pageContent := "fallback page"
  b64 := fun _ => none
  getText := fun _ => qtextW
  findAnchor := fun _ => some { href := some "https://files.example/data.pdf", childCount := 1 }
  fetchPdf := fun _ => some { pageCount := 2, pageTwoTable := some [[some "value"], [some "10"]] }
  postReply := some { correct := true, url := none, reason := none }

/-- Environment whose question text contains no URL with `submit`. -/
def envNoSub : Env where
  launchOk := true
  navOk := true
  scriptEval := none
  pageContent := "fallback page"
  b64 := fun _ => none
  getText := fun _ => "The question text only mentions https://quiz.example/info here"
  findAnchor := fun _ => none
  fetchPdf := fun _ => none
  postReply := none

/-- Environment whose first anchor is childless (falsy for bs4) and has no
href. -/
def envEmptyAnchor : Env where
  launchOk := true
  navOk := true
  scriptEval := none
  pageContent := "fallback page"
  b64 := fun _ => none
  getText := fun _ => qtextW
  findAnchor := fun _ => some { href := none, childCount := 0 }
  fetchPdf := fun _ => none
  postReply := none

/-- Environment whose first anchor has children but no href. -/
def envAnchorNoHref : Env where
  launchOk := true
  navOk := true
  scriptEval := none
  pageContent := "fallback page"
  b64 := fun _ => none
  getText := fun _ => qtextW
  findAnchor := fun _ => some { href := none, childCount := 2 }
  fetchPdf := fun _ => none
  postReply := none

example : (solve_quiz envChain reqW).outcome = Outcome.chainQueuedLocally := by decide
example : (solve_quiz envChain reqW).localBgTasks =
    [{ email := "student@example.com", secret := "s3cret", url := "https://x/next" }] := by decide
example : (solve_quiz envNoUrl reqW).localBgTasks = [] := by decide
example : (solve_quiz envNoSub reqW).posts = [] := by decide
example : (solve_quiz envEmptyAnchor reqW).outcome = Outcome.unrecognized := by decide
example : (solve_quiz envAnchorNoHref reqW).outcome = Outcome.detailError := by decide

/-! ## Helper lemmas about the stages -/

/-- Invariants every run result satisfies: nothing is raised to the
caller, teardown mirrors the launch, at most one POST is made, and a POST
implies a computed answer and a found submission URL. -/
def RunOk (r : RunResult) : Prop :=
  r.raisedToCaller = false ∧ r.browserClosed = r.browserLaunched ∧
    r.posts.length ≤ 1 ∧ (r.posts ≠ [] → r.answer.isSome ∧ r.submissionUrl.isSome)

theorem runOk_submitStage (env : Env) (req : QuizRequest) (su : String) (a : ℚ)
    (dl : Option String) : RunOk (submitStage env req su a dl) := by
  unfold RunOk submitStage
  cases hp : env.postReply with
  | none => simp [baseResult]
  | some reply =>
      cases hc : reply.correct with
      | false => simp [hc, baseResult]
      | true =>
          cases hu : reply.url with
          | none => simp [hc, hu, baseResult]
          | some u =>
              by_cases he : u = "" <;> simp [hc, hu, he, baseResult]

theorem runOk_solveStage (solver : List (List (Option String)) → Option ℚ)
    (env : Env) (req : QuizRequest) (qtext : String) (dl : Option String)
    (su : String) : RunOk (solveStage solver env req qtext dl su) := by
  unfold solveStage
  cases dl with
  | none => simp [RunOk, baseResult]
  | some link =>
      by_cases hm : strContains markerText qtext = true
      · cases hf : env.fetchPdf link with
        | none => simp [hm, hf, RunOk, baseResult]
        | some pdf =>
            by_cases hp : pdf.pageCount < 2
            · simp [hm, hf, hp, RunOk, baseResult]
            · cases ht : pdf.pageTwoTable with
              | none => simp [hm, hf, hp, ht, RunOk, baseResult]
              | some table =>
                  cases hs : solver table with
                  | none => simp [hm, hf, hp, ht, hs, RunOk, baseResult]
                  | some a =>
                      simpa [hm, hf, hp, ht, hs] using
                        runOk_submitStage env req su a (some link)
      · simp [hm, RunOk, baseResult]

theorem runOk_afterAnchor (solver : List (List (Option String)) → Option ℚ)
    (env : Env) (req : QuizRequest) (qtext : String) (dl : Option String) :
    RunOk (detailStage.afterAnchor solver env req qtext dl) := by
  unfold detailStage.afterAnchor
  cases hs : findSubmissionUrl qtext with
  | none => simp [hs, RunOk, baseResult]
  | some su => simpa [hs] using runOk_solveStage solver env req qtext dl su

theorem runOk_detailStage (solver : List (List (Option String)) → Option ℚ)
    (env : Env) (req : QuizRequest) (decoded qtext : String) :
    RunOk (detailStage solver env req decoded qtext) := by
  unfold detailStage
  cases ha : env.findAnchor decoded with
  | none => simpa [ha] using runOk_afterAnchor solver env req qtext none
  | some anchor =>
      by_cases hcc : anchor.childCount ≠ 0
      · cases hh : anchor.href with
        | none => simp [ha, hcc, hh, RunOk, baseResult]
        | some h =>
            simpa [ha, hcc, hh] using runOk_afterAnchor solver env req qtext (some h)
      · simpa [ha, hcc] using runOk_afterAnchor solver env req qtext none

theorem runOk_runPipeline (solver : List (List (Option String)) → Option ℚ)
    (env : Env) (req : QuizRequest) : RunOk (runPipeline solver env req) := by
  unfold runPipeline
  by_cases hl : env.launchOk
  · by_cases hn : env.navOk
    · simpa [hl, hn] using
        runOk_detailStage solver env req
          (extractPayload env.b64 env.scriptEval env.pageContent)
          (env.getText (extractPayload env.b64 env.scriptEval env.pageContent))
    · simp [hl, hn, RunOk, baseResult]
  · simp [hl, RunOk, baseResult]

/-- When the question text holds no URL containing `submit`, the run stops
before the solving and submission stages, whatever else the environment
does. -/
theorem noSubmit_aborts (solver : List (List (Option String)) → Option ℚ)
    (env : Env) (req : QuizRequest)
    (hf : findSubmissionUrl
        (env.getText (extractPayload env.b64 env.scriptEval env.pageContent)) = none) :
    (runPipeline solver env req).posts = [] ∧
    (runPipeline solver env req).submissionUrl = none ∧
    (runPipeline solver env req).answer = none := by
  unfold runPipeline detailStage detailStage.afterAnchor
  by_cases hl : env.launchOk
  · by_cases hn : env.navOk
    · cases ha : env.findAnchor (extractPayload env.b64 env.scriptEval env.pageContent) with
      | none => simp [hl, hn, ha, hf, baseResult]
      | some anchor =>
          by_cases hcc : anchor.childCount ≠ 0
          · cases hh : anchor.href with
            | none => simp [hl, hn, ha, hcc, hh, baseResult]
            | some h => simp [hl, hn, ha, hcc, hh, hf, baseResult]
          · simp [hl, hn, ha, hcc, hf, baseResult]
    · simp [hl, hn, baseResult]
  · simp [hl, baseResult]

/-- Decomposition of a successful `List.find?`: the found element is the
first satisfying one. -/
theorem find?_eq_some_split {α : Type} (p : α → Bool) :
    ∀ (l : List α) (a : α), l.find? p = some a →
      ∃ l1 l2, l = l1 ++ a :: l2 ∧ p a = true ∧ ∀ x ∈ l1, p x = false := by
  intro l
  induction l with
  | nil => intro a h; simp at h
  | cons b bs ih =>
      intro a h
      by_cases hb : p b = true
      · rw [List.find?_cons_of_pos _ hb] at h
        obtain rfl : b = a := by injection h
        exact ⟨[], bs, rfl, hb, by simp⟩
      · rw [List.find?_cons_of_neg _ (by simpa using hb)] at h
        obtain ⟨l1, l2, rfl, hpa, hall⟩ := ih a h
        refine ⟨b :: l1, l2, rfl, hpa, ?_⟩
        intro x hx
        rcases List.mem_cons.mp hx with rfl | hx
        · simpa using hb
        · exact hall x hx

/-! ## Claim theorems -/

/-- C9: with the `SECRET` environment variable unset the configured secret
is `None`; since the request's `secret` field is a `str` it never equals
`None`, so every request to `/quiz` is rejected with HTTP 403 and nothing
is ever added to the injected background-task list. -/
theorem C9_unset_secret_rejects_all (req : QuizRequest) (bg : List QuizRequest) :
    receive_quiz none req bg = (Except.error 403, bg) := rfl

/-- C4: for every page, the payload extractor either returns the
base64-decoded text of the second backtick-delimited segment of the
evaluated script content, or — when the lookup, the split or the decode
fails — returns the rendered page content verbatim; being a total
function, it raises nothing. -/
theorem C4_decoded_or_verbatim_fallback (b64 : String → Option String)
    (scriptEval : Option String) (pageContent : String) :
    (∃ sc seg d, scriptEval = some sc ∧ secondBacktickSegment sc = some seg ∧
        b64 seg = some d ∧ extractPayload b64 scriptEval pageContent = d) ∨
    extractPayload b64 scriptEval pageContent = pageContent := by
  cases hsc : scriptEval with
  | none => right; simp [extractPayload]
  | some sc =>
      cases hseg : secondBacktickSegment sc with
      | none => right; simp [extractPayload, hseg]
      | some seg =>
          cases hd : b64 seg with
          | none => right; simp [extractPayload, hseg, hd]
          | some d =>
              left
              exact ⟨sc, seg, d, rfl, hseg, hd, by simp [extractPayload, hseg, hd]⟩

/-- C7: every run performs at most one submission POST, and a POST happens
only when an answer was computed and a submission URL was found in the
same run. -/
theorem C7_single_guarded_submission
    (solver : List (List (Option String)) → Option ℚ) (env : Env)
    (req : QuizRequest) :
    (runPipeline solver env req).posts.length ≤ 1 ∧
    ((runPipeline solver env req).posts ≠ [] →
      (runPipeline solver env req).answer.isSome = true ∧
      (runPipeline solver env req).submissionUrl.isSome = true) := by
  have h := runOk_runPipeline solver env req
  exact ⟨h.2.2.1, h.2.2.2⟩

theorem C7_witness :
    (runPipeline mainTableAnswer envChain reqW).answer.isSome = true ∧
    (runPipeline mainTableAnswer envChain reqW).submissionUrl.isSome = true :=
  (C7_single_guarded_submission mainTableAnswer envChain reqW).2 (by decide)

/-- C8: no run propagates an exception to its caller — the top-level
handler swallows whatever the stage handlers let through — and whenever
the browser was launched it is closed on every exit path. -/
theorem C8_never_raises_and_closes_browser
    (solver : List (List (Option String)) → Option ℚ) (env : Env)
    (req : QuizRequest) :
    (runPipeline solver env req).raisedToCaller = false ∧
    ((runPipeline solver env req).browserLaunched = true →
      (runPipeline solver env req).browserClosed = true) := by
  have h := runOk_runPipeline solver env req
  exact ⟨h.1, fun hl => by rw [h.2.1, hl]⟩

theorem C8_witness :
    (runPipeline mainTableAnswer envChain reqW).browserClosed = true :=
  (C8_never_raises_and_closes_browser mainTableAnswer envChain reqW).2 (by decide)

/-- C1 (code bug): on a reply `correct = true` with the non-empty follow-up
URL `https://x/next`, the code builds the follow-up `QuizRequest` with the
same email and secret and the new URL — but only adds it to a freshly
constructed local `BackgroundTasks` object that nothing ever invokes, so
the chained run is queued on a dead object instead of being executed; on a
reply with no `url` nothing is queued anywhere. -/
theorem C1_chain_queued_on_dead_object_only :
    (solve_quiz envChain reqW).outcome = Outcome.chainQueuedLocally ∧
    (solve_quiz envChain reqW).localBgTasks =
      [{ email := reqW.email, secret := reqW.secret, url := "https://x/next" }] ∧
    (solve_quiz envNoUrl reqW).outcome = Outcome.seriesFinished ∧
    (solve_quiz envNoUrl reqW).localBgTasks = [] :=
  ⟨by decide, by decide, by decide, by decide⟩

/-- C10 (counterexample): a decoded page whose first anchor is childless
and has no `href` does **not** abort at detail extraction: bs4 tags are
falsy when they have no contents, so `if soup.find('a'):` skips the
`['href']` access and the run continues with `downloadLink` absent, finds
the submission URL, and only aborts later at quiz-type dispatch. -/
theorem C10_counterexample_childless_anchor :
    (solve_quiz envEmptyAnchor reqW).outcome = Outcome.unrecognized ∧
    (solve_quiz envEmptyAnchor reqW).outcome ≠ Outcome.detailError ∧
    (solve_quiz envEmptyAnchor reqW).downloadLink = none ∧
    (solve_quiz envEmptyAnchor reqW).submissionUrl = some "https://quiz.submit.example" :=
  ⟨by decide, by decide, by decide, by decide⟩

/-- C10 (amended): for every decoded page whose first anchor element has
at least one child (so the bs4 tag is truthy) and lacks an `href`
attribute, the `['href']` access raises `KeyError`, the stage handler
catches it and the run aborts: no submission URL is selected, no answer is
computed, and no POST occurs. -/
theorem C10_truthy_anchor_without_href_aborts
    (solver : List (List (Option String)) → Option ℚ) (env : Env)
    (req : QuizRequest) (anchor : AnchorTag)
    (hl : env.launchOk = true) (hn : env.navOk = true)
    (ha : env.findAnchor (extractPayload env.b64 env.scriptEval env.pageContent) =
      some anchor)
    (hcc : anchor.childCount ≠ 0) (hh : anchor.href = none) :
    (runPipeline solver env req).outcome = Outcome.detailError ∧
    (runPipeline solver env req).answer = none ∧
    (runPipeline solver env req).posts = [] ∧
    (runPipeline solver env req).submissionUrl = none := by
  unfold runPipeline detailStage
  simp [hl, hn, ha, hcc, hh, baseResult]

theorem C10_witness :
    (runPipeline mainTableAnswer envAnchorNoHref reqW).outcome = Outcome.detailError ∧
    (runPipeline mainTableAnswer envAnchorNoHref reqW).answer = none ∧
    (runPipeline mainTableAnswer envAnchorNoHref reqW).posts = [] ∧
    (runPipeline mainTableAnswer envAnchorNoHref reqW).submissionUrl = none :=
  C10_truthy_anchor_without_href_aborts mainTableAnswer envAnchorNoHref reqW
    { href := none, childCount := 2 } rfl rfl rfl (by decide) rfl

/-- C5: the selected submission URL is the first recognised URL, in order
of appearance, containing the literal substring `submit`; when no
recognised URL contains it, none is selected and the run aborts with no
POST, no submission URL and no answer. -/
theorem C5_first_submit_url_or_abort (text : String)
    (solver : List (List (Option String)) → Option ℚ) (env : Env)
    (req : QuizRequest) :
    (∀ v, findSubmissionUrl text = some v →
      ∃ l1 u l2, findUrls text.toList = l1 ++ u :: l2 ∧ v = String.mk u ∧
        hasSubstring "submit".toList u = true ∧
        ∀ w ∈ l1, hasSubstring "submit".toList w = false) ∧
    ((∀ u ∈ findUrls text.toList, hasSubstring "submit".toList u = false) →
      findSubmissionUrl text = none) ∧
    (findSubmissionUrl
        (env.getText (extractPayload env.b64 env.scriptEval env.pageContent)) = none →
      (runPipeline solver env req).posts = [] ∧
      (runPipeline solver env req).submissionUrl = none ∧
      (runPipeline solver env req).answer = none) := by
  refine ⟨?_, ?_, noSubmit_aborts solver env req⟩
  · intro v hv
    unfold findSubmissionUrl at hv
    obtain ⟨u, hu, rfl⟩ := Option.map_eq_some'.mp hv
    obtain ⟨l1, l2, hsplit, hp, hall⟩ :=
      find?_eq_some_split (fun u => hasSubstring "submit".toList u) _ u hu
    exact ⟨l1, u, l2, hsplit, rfl, hp, hall⟩
  · intro hall
    unfold findSubmissionUrl
    have hnone : (findUrls text.toList).find?
        (fun u => hasSubstring "submit".toList u) = none :=
      List.find?_eq_none.mpr fun u hu => by
        show ¬ hasSubstring "submit".toList u = true
        rw [hall u hu]
        simp
    rw [hnone]
    rfl

/-! ## Table answers: lemmas for C2 and C3 -/

theorem foldl_max_const (a : Nat) :
    ∀ (xs : List Nat), (∀ x ∈ xs, x = a) → xs.foldl max a = a := by
  intro xs
  induction xs with
  | nil => intro _; rfl
  | cons x rest ih =>
      intro h
      have hx : x = a := h x (List.mem_cons_self x rest)
      subst hx
      have : max x x = x := Nat.max_self x
      simp only [List.foldl_cons, this]
      exact ih fun y hy => h y (List.mem_cons_of_mem x hy)

theorem foldl_max_zero_const (a : Nat) (xs : List Nat) (hne : xs ≠ [])
    (h : ∀ x ∈ xs, x = a) : xs.foldl max 0 = a := by
  cases xs with
  | nil => exact absurd rfl hne
  | cons x rest =>
      have hx : x = a := h x (List.mem_cons_self x rest)
      subst hx
      simp only [List.foldl_cons, Nat.zero_max]
      exact foldl_max_const x rest fun y hy => h y (List.mem_cons_of_mem x hy)

theorem indexSumRows_eq_sum (i : Nat) :
    ∀ (rows : List (List (Option String))), (∀ r ∈ rows, i < r.length) →
      indexSumRows i rows =
        some ((rows.map fun r => (coerceCell ((r[i]?).getD none)).getD 0).sum) := by
  intro rows
  induction rows with
  | nil => intro _; simp [indexSumRows]
  | cons r rs ih =>
      intro h
      have hi : i < r.length := h r (List.mem_cons_self r rs)
      have hr : r[i]? = some r[i] := List.getElem?_eq_getElem hi
      rw [indexSumRows, hr, ih fun x hx => h x (List.mem_cons_of_mem r hx)]
      simp [hr]

theorem indexSumRows_some (i : Nat) :
    ∀ (rows : List (List (Option String))) (a : ℚ), indexSumRows i rows = some a →
      a = (rows.map fun r => (coerceCell ((r[i]?).getD none)).getD 0).sum := by
  intro rows
  induction rows with
  | nil =>
      intro a h
      simp [indexSumRows] at h
      simp [← h]
  | cons r rs ih =>
      intro a h
      rw [indexSumRows] at h
      cases hr : r[i]? with
      | none => rw [hr] at h; simp at h
      | some cell =>
          rw [hr] at h
          obtain ⟨t, ht, rfl⟩ := Option.map_eq_some'.mp h
          simp [hr, ih t ht]

/-- Counterexample table for C2: a data row one cell wider than the
header. -/
def tableRagged : List (List (Option String)) :=
  [[some "id", some "value"], [some "1", some "2", some "3"]]

/-- A rectangular table whose header lists `value` twice. -/
def tableDupValue : List (List (Option String)) :=
  [[some "value", some "value"], [some "1", some "2"]]

/-- C2 (counterexample): the two variants do not always compute the same
answer.  On a table whose data row is wider than the header, the pandas
variant aborts (the `DataFrame` constructor rejects the column-count
mismatch, so no answer is computed) while the PyMuPDF variant indexes into
the row and computes `2.0`.  On a rectangular table whose header lists
`value` twice, `df['value']` is a two-column `DataFrame` and
`pd.to_numeric` raises `TypeError` (abort, no answer), while the PyMuPDF
variant sums the first `value` column and computes `1.0`. -/
theorem C2_counterexample_ragged_row :
    (mainTableAnswer tableRagged = none ∧
      indexTableAnswer tableRagged ≠ none ∧
      mainTableAnswer tableRagged ≠ indexTableAnswer tableRagged) ∧
    (mainTableAnswer tableDupValue = none ∧
      indexTableAnswer tableDupValue ≠ none ∧
      mainTableAnswer tableDupValue ≠ indexTableAnswer tableDupValue) :=
  ⟨⟨by decide, by decide, by decide⟩, ⟨by decide, by decide, by decide⟩⟩

/-- C2 (amended): the two variants compute the same answer for every
extracted table whose data rows all have exactly as many cells as the
header row and whose header holds at most one `value` column.  (A wider or
narrower row makes the pandas variant abort while the PyMuPDF variant can
still compute, and a duplicated `value` header makes the pandas variant
abort on `pd.to_numeric` receiving a two-column `DataFrame` while the
PyMuPDF variant sums the first such column.) -/
theorem C2_variants_agree_on_rectangular_tables (header : List (Option String))
    (rows : List (List (Option String)))
    (hlen : ∀ r ∈ rows, r.length = header.length)
    (hcount : header.count (some "value") ≤ 1) :
    mainTableAnswer (header :: rows) = indexTableAnswer (header :: rows) := by
  rcases Nat.le_one_iff_eq_zero_or_eq_one.mp hcount with h0 | h1
  · have hni : some "value" ∉ header := List.count_eq_zero.mp h0
    have hc : header.contains (some "value") = false := by
      cases hcb : header.contains (some "value") with
      | false => rfl
      | true => exact absurd (List.mem_of_elem_eq_true hcb) hni
    unfold mainTableAnswer indexTableAnswer
    simp [h0, hc, hni]
  · have hmem : some "value" ∈ header := List.count_pos_iff.mp (by omega)
    have hcon : header.contains (some "value") = true := List.elem_eq_true_of_mem hmem
    have hidx : header.indexOf (some "value") < header.length := by
      unfold List.indexOf
      exact List.findIdx_lt_length_of_exists ⟨some "value", hmem, by simp⟩
    have hguard : (!rows.isEmpty &&
        (rows.map List.length).foldl max 0 != header.length) = false := by
      cases rows with
      | nil => rfl
      | cons r rs =>
          have hw : ((r :: rs).map List.length).foldl max 0 = header.length := by
            refine foldl_max_zero_const header.length _ (by simp) ?_
            intro x hx
            obtain ⟨r', hr', rfl⟩ := List.mem_map.mp hx
            exact hlen r' hr'
          rw [hw]
          simp
    have hsum := indexSumRows_eq_sum (header.indexOf (some "value")) rows
      fun r hr => (hlen r hr) ▸ hidx
    simp only [mainTableAnswer, indexTableAnswer]
    simp [hguard, h1, hcon, hmem, hsum]

theorem C2_witness :
    mainTableAnswer [[some "id", some "value"], [some "1", some "10"]] =
      indexTableAnswer [[some "id", some "value"], [some "1", some "10"]] :=
  C2_variants_agree_on_rectangular_tables [some "id", some "value"]
    [[some "1", some "10"]] (by decide) (by decide)

/-! ## Value-column sum: lemmas for C3 -/

/-- The specification's answer for a whole extracted table. -/
def specAnswer : List (List (Option String)) → ℚ
  | [] => 0
  | header :: rows => specValueSum header rows

theorem pyFloat_five_five : pyFloat "5.5" = some (11 / 2) := by
  simp [pyFloat, stripSpaces, parseSignedMantissa, parseSign, parseUnsignedMantissa,
    allDigits, digitsVal, List.splitOn]
  norm_num

/-- Whenever the pandas variant computes an answer, it is the
specification's column sum. -/
theorem mainTableAnswer_spec (t : List (List (Option String))) (a : ℚ)
    (h : mainTableAnswer t = some a) : a = specAnswer t := by
  cases t with
  | nil => simp [mainTableAnswer] at h
  | cons header rows =>
      simp only [mainTableAnswer] at h
      by_cases hg : (!rows.isEmpty &&
          (rows.map List.length).foldl max 0 != header.length) = true
      · simp [hg] at h
      · by_cases hc : (header.count (some "value") == 1) = true
        · simp [hg, hc] at h
          simpa [specAnswer, specValueSum] using h.symm
        · simp [hg, hc] at h

/-- Whenever the PyMuPDF variant computes an answer, it is the
specification's column sum. -/
theorem indexTableAnswer_spec (t : List (List (Option String))) (a : ℚ)
    (h : indexTableAnswer t = some a) : a = specAnswer t := by
  cases t with
  | nil => simp [indexTableAnswer] at h
  | cons header rows =>
      simp only [indexTableAnswer] at h
      by_cases hc : header.contains (some "value") = true
      · rw [if_pos hc] at h
        simpa [specAnswer, specValueSum] using
          indexSumRows_some (header.indexOf (some "value")) rows a h
      · rw [if_neg hc] at h
        exact absurd h (by simp)

/-- The table of the specification's worked scenario. -/
def ex15 : List (List (Option String)) :=
  [[some "id", some "value"],
   [some "1", some "10"], [some "2", some "abc"], [some "3", some "5.5"]]

/-- A table whose `value` cells are all non-numeric. -/
def exZero : List (List (Option String)) :=
  [[some "id", some "value"], [some "1", some "x"], [some "2", some "y"]]

theorem mainTableAnswer_ex15 : mainTableAnswer ex15 = some (31 / 2) := by
  have h : mainTableAnswer ex15 =
      some ((coerceCell (some "10")).getD 0 + ((coerceCell (some "abc")).getD 0 +
        ((coerceCell (some "5.5")).getD 0 + 0))) := rfl
  rw [h, show coerceCell (some "10") = some 10 from rfl,
    show coerceCell (some "abc") = none from rfl,
    show coerceCell (some "5.5") = pyFloat "5.5" from rfl, pyFloat_five_five]
  norm_num

theorem indexTableAnswer_ex15 : indexTableAnswer ex15 = some (31 / 2) := by
  have h : indexTableAnswer ex15 =
      some ((coerceCell (some "10")).getD 0 + ((coerceCell (some "abc")).getD 0 +
        ((coerceCell (some "5.5")).getD 0 + 0))) := rfl
  rw [h, show coerceCell (some "10") = some 10 from rfl,
    show coerceCell (some "abc") = none from rfl,
    show coerceCell (some "5.5") = pyFloat "5.5" from rfl, pyFloat_five_five]
  norm_num

theorem mainTableAnswer_exZero : mainTableAnswer exZero = some 0 := by
  have h : mainTableAnswer exZero =
      some ((coerceCell (some "x")).getD 0 + ((coerceCell (some "y")).getD 0 + 0)) := rfl
  rw [h, show coerceCell (some "x") = none from rfl,
    show coerceCell (some "y") = none from rfl]
  norm_num

theorem indexTableAnswer_exZero : indexTableAnswer exZero = some 0 := by
  have h : indexTableAnswer exZero =
      some ((coerceCell (some "x")).getD 0 + ((coerceCell (some "y")).getD 0 + 0)) := rfl
  rw [h, show coerceCell (some "x") = none from rfl,
    show coerceCell (some "y") = none from rfl]
  norm_num

/-- C3: whenever either variant computes an answer for a table, it equals
the sum of the `value`-column cells that coerce to a number, the cells
failing coercion contributing zero without aborting the computation; in
the worked scenario (`id`/`value` header with rows `10`, `abc`, `5.5`)
both variants compute `15.5`, and on a column of solely non-numeric cells
both compute `0`. -/
theorem C3_answer_is_value_column_sum :
    (∀ (t : List (List (Option String))) (a : ℚ),
      mainTableAnswer t = some a → a = specAnswer t) ∧
    (∀ (t : List (List (Option String))) (a : ℚ),
      indexTableAnswer t = some a → a = specAnswer t) ∧
    mainTableAnswer ex15 = some (31 / 2) ∧
    indexTableAnswer ex15 = some (31 / 2) ∧
    mainTableAnswer exZero = some 0 ∧
    indexTableAnswer exZero = some 0 :=
  ⟨mainTableAnswer_spec, indexTableAnswer_spec, mainTableAnswer_ex15,
    indexTableAnswer_ex15, mainTableAnswer_exZero, indexTableAnswer_exZero⟩

theorem C3_witness : (31 / 2 : ℚ) = specAnswer ex15 :=
  C3_answer_is_value_column_sum.1 ex15 (31 / 2)
    C3_answer_is_value_column_sum.2.2.1

/-! ## Shape of recognised URLs: lemmas for C6 -/

theorem https_prefix_append (body : List Char) :
    "https://".toList.isPrefixOf ("https://".toList ++ body) = true := by
  simp [List.isPrefixOf]

theorem http_prefix_append (body : List Char) :
    "http://".toList.isPrefixOf ("http://".toList ++ body) = true := by
  simp [List.isPrefixOf]

theorem https_not_prefix_http (body : List Char) :
    "https://".toList.isPrefixOf ("http://".toList ++ body) = false := by
  simp [List.isPrefixOf]

theorem drop8_https (body : List Char) : ("https://".toList ++ body).drop 8 = body := rfl

theorem drop7_http (body : List Char) : ("http://".toList ++ body).drop 7 = body := rfl

/-- The greedy body really decomposes into units of the regex body class:
single characters of `[-\w.]` or percent-encoded bytes. -/
theorem bodyUnitsOk_take_bodyLen :
    ∀ (n : Nat) (l : List Char), l.length ≤ n →
      bodyUnitsOk isUrlChar (l.take (bodyLen l)) = true := by
  intro n
  induction n with
  | zero =>
      intro l hl
      have : l = [] := List.eq_nil_of_length_eq_zero (Nat.le_zero.mp hl)
      subst this
      rfl
  | succ m ih =>
      intro l hl
      cases l with
      | nil => rfl
      | cons c rest =>
          by_cases hc : isUrlChar c = true
          · have hb : bodyLen (c :: rest) = bodyLen rest + 1 := by
              conv_lhs => rw [bodyLen.eq_def]
              simp [hc]
            rw [hb, List.take_succ_cons]
            have hrec := ih rest (by simpa using Nat.le_of_succ_le_succ hl)
            conv_lhs => rw [bodyUnitsOk.eq_def]
            simp [hc, hrec]
          · by_cases hp : c = '%'
            · subst hp
              cases rest with
              | nil => rfl
              | cons h1 rest1 =>
                  cases rest1 with
                  | nil => rfl
                  | cons h2 rest2 =>
                      by_cases hh : (isHexDigitChar h1 && isHexDigitChar h2) = true
                      · rw [Bool.and_eq_true] at hh
                        have hb : bodyLen ('%' :: h1 :: h2 :: rest2) =
                            bodyLen rest2 + 3 := by
                          conv_lhs => rw [bodyLen.eq_def]
                          simp [hh.1, hh.2, isUrlChar, isWordChar]
                        rw [hb]
                        rw [show bodyLen rest2 + 3 = (bodyLen rest2 + 2) + 1 from rfl,
                          List.take_succ_cons,
                          show bodyLen rest2 + 2 = (bodyLen rest2 + 1) + 1 from rfl,
                          List.take_succ_cons, List.take_succ_cons]
                        have hrec := ih rest2 (by
                          have := hl
                          simp only [List.length_cons] at this ⊢
                          omega)
                        conv_lhs => rw [bodyUnitsOk.eq_def]
                        simp [hh.1, hh.2, hrec, isUrlChar, isWordChar]
                      · have hb : bodyLen ('%' :: h1 :: h2 :: rest2) = 0 := by
                          conv_lhs => rw [bodyLen.eq_def]
                          simp [hh, isUrlChar, isWordChar]
                        rw [hb]
                        rfl
            · have hb : bodyLen (c :: rest) = 0 := by
                conv_lhs => rw [bodyLen.eq_def]
                simp [hc, hp]
              rw [hb]
              rfl

/-- Every anchored match of the regex has the recognised shape: scheme
plus nonempty unit body. -/
theorem matchAt_shape (l m r : List Char) (h : matchAt l = some (m, r)) :
    urlShape isUrlChar m = true := by
  rw [matchAt] at h
  cases hs : schemeSplit l with
  | none => rw [hs] at h; exact absurd h (by simp)
  | some pr =>
      obtain ⟨pre, rest⟩ := pr
      rw [hs] at h
      dsimp only at h
      by_cases hn : bodyLen rest = 0
      · rw [if_pos hn] at h
        exact absurd h (by simp)
      · rw [if_neg hn] at h
        have hm : m = pre ++ rest.take (bodyLen rest) := by
          injection h with h1
          exact (congrArg Prod.fst h1).symm
        have hrest_ne : rest ≠ [] := by
          intro hre
          subst hre
          exact hn rfl
        have hne : rest.take (bodyLen rest) ≠ [] := by
          intro hempty
          rcases List.take_eq_nil_iff.mp hempty with h' | h'
          · exact hn h'
          · exact hrest_ne h'
        have hunits : bodyUnitsOk isUrlChar (rest.take (bodyLen rest)) = true :=
          bodyUnitsOk_take_bodyLen rest.length rest (Nat.le_refl _)
        unfold schemeSplit at hs
        by_cases h8 : "https://".toList.isPrefixOf l = true
        · rw [if_pos h8] at hs
          injection hs with hs1
          have hpre : pre = "https://".toList := (congrArg Prod.fst hs1).symm
          subst hpre hm
          unfold urlShape
          simp [https_prefix_append, drop8_https, hne, hunits]
        · rw [if_neg h8] at hs
          by_cases h7 : "http://".toList.isPrefixOf l = true
          · rw [if_pos h7] at hs
            injection hs with hs1
            have hpre : pre = "http://".toList := (congrArg Prod.fst hs1).symm
            subst hpre hm
            unfold urlShape
            simp [https_not_prefix_http, http_prefix_append, drop7_http, hne, hunits]
          · rw [if_neg h7] at hs
            exact absurd hs (by simp)

/-- Every URL the scan produces has the recognised shape. -/
theorem findUrlsAux_shape :
    ∀ (fuel : Nat) (l u : List Char), u ∈ findUrlsAux fuel l →
      urlShape isUrlChar u = true := by
  intro fuel
  induction fuel with
  | zero => intro l u h; simp [findUrlsAux] at h
  | succ m ih =>
      intro l u h
      cases l with
      | nil => simp [findUrlsAux] at h
      | cons c rest =>
          rw [findUrlsAux] at h
          cases hm : matchAt (c :: rest) with
          | none =>
              rw [hm] at h
              exact ih rest u h
          | some pr =>
              obtain ⟨mm, r⟩ := pr
              rw [hm] at h
              rcases List.mem_cons.mp h with rfl | h2
              · exact matchAt_shape (c :: rest) u r hm
              · exact ih r u h2

/-- C6 (counterexample): the text `http://a_b` is recognised as one URL by
the source's regex, but its body holds the underscore, which is neither an
alphanumeric, a hyphen, a dot, nor part of a percent-encoded byte — the
claimed character set does not cover what the pattern accepts. -/
theorem C6_counterexample_underscore :
    findUrls "http://a_b".toList = ["http://a_b".toList] ∧
    urlShape claimCharOk "http://a_b".toList = false ∧
    urlShape isUrlChar "http://a_b".toList = true :=
  ⟨by decide, by decide, by decide⟩

/-- C6 (amended): every substring recognised as a URL is the scheme `http`
or `https` with `://`, followed by one or more units, each of which is an
alphanumeric, an underscore, a hyphen, a dot, or a percent-encoded byte
sequence — no other character appears. -/
theorem C6_recognised_url_charset (text u : List Char)
    (hu : u ∈ findUrls text) : urlShape isUrlChar u = true :=
  findUrlsAux_shape text.length text u hu

theorem C6_witness : urlShape isUrlChar "http://a.b".toList = true :=
  C6_recognised_url_charset "see http://a.b".toList "http://a.b".toList (by decide)

theorem C5_witness :
    (runPipeline mainTableAnswer envNoSub reqW).posts = [] ∧
    (runPipeline mainTableAnswer envNoSub reqW).submissionUrl = none ∧
    (runPipeline mainTableAnswer envNoSub reqW).answer = none :=
  (C5_first_submit_url_or_abort "unused" mainTableAnswer envNoSub reqW).2.2 (by decide)

end Quiz
